import Mathlib

/-!
Shallow embedding of `src/main.py` (Document Q&A with SVAM AI, a Streamlit
application built on the Gemini API).

Remote calls (`genai.configure` + test generation, `genai.upload_file`,
`genai.get_file`, `model.generate_content`) are modelled as `Except`-valued
oracles supplied to each function: `Except.ok v` means the remote call
returned `v`, `Except.error e` means it raised an exception whose message
is `e`.  One Streamlit rerun of the script body of `main()` is modelled as
the function `runStep` on `SessionState`, mirroring the script order:
probe initialisation (lines 104-108), sidebar upload (lines 128-142) and
the chat interface (lines 164-201), including the early termination that
`st.rerun()` performs after the Clear History button (lines 188-190).
-/

/-- A file presented through `st.file_uploader`: `.name`, `.size` (bytes) and
`.getvalue()` content. -/
structure UploadedFile where
  name : String
  size : Nat
  content : String
deriving DecidableEq, Repr

/-- The opaque handle returned by `genai.upload_file`: its remote resource
`name` and, when the attribute is present, its `display_name`. -/
structure GeminiFile where
  name : String
  display_name : Option String
deriving DecidableEq, Repr

/-- The object returned by `genai.get_file`: `display_name` (possibly `None`),
and the `mime_type` and `state` attributes when present (`none` models a
missing attribute, i.e. `hasattr` false; for `state` the stored string is
`state.name`). -/
structure FileMeta where
  display_name : Option String
  mime_type : Option String
  state : Option String
deriving DecidableEq, Repr

/-- The dict built by `get_file_info` (lines 66-78). -/
structure FileInfo where
  name : String
  size : String
  mime_type : String
  state : String
deriving DecidableEq, Repr

/-- Outcomes of the four kinds of remote calls a rerun can make. -/
structure RemoteOracles where
  probe : Except String Unit
  upload : Except String GeminiFile
  getfile : Except String FileMeta
  answer : Except String String
deriving Repr

/-- Model of `setup_gemini` (lines 12-22): configure the API and issue a test
generation; `True` on success, every exception is caught and turned into
`False` (after `st.error`). -/
def setup_gemini (remote : Except String Unit) : Bool :=
  match remote with
  | Except.ok _ => true
  | Except.error _ => false

/-- Model of `upload_file_to_gemini` (lines 24-42).  The function writes the uploaded
bytes to a `NamedTemporaryFile(delete=False, ...)`, calls
`genai.upload_file`, then `os.unlink`s the temporary file and returns the
handle; any exception is caught and `None` is returned.  The second
component of the result records whether the temporary file still exists
when the call returns: on success `os.unlink` (line 36) ran, so `false`;
on an exception from the upload call, control jumps to the handler at
line 40 without reaching `os.unlink`, so the temporary file remains
(`true`). -/
def upload_file_to_gemini (uploaded_file : UploadedFile)
    (remote : Except String GeminiFile) : Option GeminiFile × Bool :=
  match remote with
  | Except.ok gemini_file => (some gemini_file, false)
  | Except.error _ => (none, true)

/-- Model of `answer_question_with_gemini` (lines 44-60): sentinel when no document is
present, otherwise the remote answer text, with any exception converted to
a prefixed error string. -/
def answer_question_with_gemini (query : String) (gemini_file : Option GeminiFile)
    (remote : Except String String) : String :=
  match gemini_file with
  | none => "No document uploaded yet."
  | some _ =>
    match remote with
    | Except.ok text => text
    | Except.error e => "Error generating response: " ++ e

/-- Model of `get_file_info` (lines 62-78).  On a successful `genai.get_file`, the
dict uses `file_info.display_name or gemini_file.name` (Python `or`: the
fallback is taken when `display_name` is `None` or the empty string),
`"Unknown type"` when `mime_type` is absent and `"Active"` when `state` is
absent.  On any exception it falls back to the handle's `display_name`
(or the literal `"Uploaded file"`), `"Unknown type"` and `"Active"`. -/
def get_file_info (gemini_file : GeminiFile) (remote : Except String FileMeta) :
    FileInfo :=
  match remote with
  | Except.ok fi =>
    { name := match fi.display_name with
        | some d => if d = "" then gemini_file.name else d
        | none => gemini_file.name
      size := "Unknown size"
      mime_type := fi.mime_type.getD "Unknown type"
      state := fi.state.getD "Active" }
  | Except.error _ =>
    { name := gemini_file.display_name.getD "Uploaded file"
      size := "Unknown size"
      mime_type := "Unknown type"
      state := "Active" }

/-- The `st.session_state` fields the script uses (lines 95-102 and 136):
the active document handle, the chat transcript, the cached probe result,
the identity key of the active document (absent before the first upload,
as read by `getattr(..., 'current_file_key', None)`) and the displayed
file information. -/
structure SessionState where
  gemini_file : Option GeminiFile
  chat_history : List (String × String)
  gemini_configured : Bool
  current_file_key : Option String
  file_info : Option FileInfo
deriving DecidableEq, Repr

/-- The session state created by the initialisation block (lines 95-102). -/
def initialState : SessionState :=
  { gemini_file := none
    chat_history := []
    gemini_configured := false
    current_file_key := none
    file_info := none }

/-- The identity key of line 130: the file name, an underscore, and the decimal byte size. -/
def file_key (uploaded_file : UploadedFile) : String :=
  uploaded_file.name ++ "_" ++ toString uploaded_file.size

/-- The user-controlled inputs of one rerun: the file currently in the
uploader widget, whether the Clear History button was clicked, whether the
Ask button was clicked, and the text of the question input. -/
structure RerunInput where
  uploaded_file : Option UploadedFile
  clearClicked : Bool
  askClicked : Bool
  question : String
deriving DecidableEq, Repr

/-- Lines 104-108: if the probe result is not yet cached as true, run
`setup_gemini` and cache `True` on success. -/
def probePhase (s : SessionState) (o : RemoteOracles) : SessionState :=
  if s.gemini_configured then s
  else if setup_gemini o.probe then { s with gemini_configured := true } else s

/-- Lines 128-142: the sidebar upload block.  Returns the new state, whether
a remote upload call was attempted, and whether the temporary file of that
call was left behind.  The upload runs only when a file is present and the
probe result is cached as true; the identity check at line 131 skips the
upload when a handle is already held and the stored key equals the
presented file's key.  On a successful upload the handle, key and file
information are stored and the chat history is cleared; on `None` nothing
is changed. -/
def uploadPhase (s : SessionState) (uploaded : Option UploadedFile)
    (o : RemoteOracles) : SessionState × Bool × Bool :=
  match uploaded with
  | none => (s, false, false)
  | some uf =>
    if s.gemini_configured then
      if s.gemini_file.isNone ∨ s.current_file_key ≠ some (file_key uf) then
        match upload_file_to_gemini uf o.upload with
        | (some g, tempExists) =>
          ({ s with gemini_file := some g
                    current_file_key := some (file_key uf)
                    chat_history := []
                    file_info := some (get_file_info g o.getfile) },
           true, tempExists)
        | (none, tempExists) => (s, true, tempExists)
      else (s, false, false)
    else (s, false, false)

/-- Lines 164-201: the chat interface.  Returns the new state and whether a
remote answer call was made.  Guarded by a held handle and a cached true
probe result; the Clear History button empties the history and calls
`st.rerun()`, which terminates the script before the Ask handler; the Ask
handler runs only when the button was clicked and the question is
non-empty (`if ask_button and question:`), and appends the
(question, answer) turn. -/
def chatPhase (s : SessionState) (inp : RerunInput) (o : RemoteOracles) :
    SessionState × Bool :=
  if s.gemini_file.isSome ∧ s.gemini_configured then
    if inp.clearClicked then
      ({ s with chat_history := [] }, false)
    else if inp.askClicked ∧ inp.question ≠ "" then
      ({ s with chat_history := s.chat_history ++
          [(inp.question,
            answer_question_with_gemini inp.question s.gemini_file o.answer)] },
       true)
    else (s, false)
  else (s, false)

/-- The observable outcome of one rerun. -/
structure RerunResult where
  state : SessionState
  uploadAttempted : Bool
  answerAttempted : Bool
  tempLeft : Bool
deriving DecidableEq, Repr

/-- One rerun of the script body of `main()`, in script order. -/
def runStep (s : SessionState) (inp : RerunInput) (o : RemoteOracles) :
    RerunResult :=
  let s1 := probePhase s o
  let r2 := uploadPhase s1 inp.uploaded_file o
  let r3 := chatPhase r2.1 inp o
  { state := r3.1
    uploadAttempted := r2.2.1
    answerAttempted := r3.2
    tempLeft := r2.2.2 }

/-- A whole session: a list of reruns, each with its inputs and remote
outcomes.  Returns the final state together with whether any rerun
attempted a remote upload call and whether any attempted a remote answer
call. -/
def runSession (s : SessionState) (evs : List (RerunInput × RemoteOracles)) :
    SessionState × Bool × Bool :=
  match evs with
  | [] => (s, false, false)
  | ev :: rest =>
    let r := runStep s ev.1 ev.2
    let t := runSession r.state rest
    (t.1, r.uploadAttempted || t.2.1, r.answerAttempted || t.2.2)

/-- Repeated Ask reruns against a fixed document: each element carries the
question text and the outcome of the remote answer call of that rerun. -/
def runAsks (s : SessionState) (qs : List (String × Except String String)) :
    SessionState :=
  match qs with
  | [] => s
  | (q, a) :: rest =>
    runAsks (runStep s ⟨none, false, true, q⟩
      ⟨Except.ok (), Except.error "unused", Except.error "unused", a⟩).state rest

/-- Sample uploaded file used by concrete witnesses. -/
def fileW : UploadedFile := ⟨"report.pdf", 10240, "PDFBYTES"⟩

/-- A second sample uploaded file with a different identity. -/
def fileW2 : UploadedFile := ⟨"report_v2.pdf", 20480, "PDFBYTES2"⟩

/-- Sample remote handle used by concrete witnesses. -/
def handleW : GeminiFile := ⟨"files/abc123", some "report.pdf"⟩

/-- A second sample remote handle. -/
def handleW2 : GeminiFile := ⟨"files/def456", some "report_v2.pdf"⟩


/-! ### Helper lemmas about the phases -/

theorem probePhase_preserves (s : SessionState) (o : RemoteOracles) :
    (probePhase s o).gemini_file = s.gemini_file ∧
    (probePhase s o).current_file_key = s.current_file_key ∧
    (probePhase s o).chat_history = s.chat_history ∧
    (probePhase s o).file_info = s.file_info := by
  unfold probePhase
  by_cases h : s.gemini_configured <;> simp [h]
  by_cases h2 : setup_gemini o.probe <;> simp [h2]

theorem probePhase_of_configured (s : SessionState) (o : RemoteOracles)
    (h : s.gemini_configured = true) : probePhase s o = s := by
  unfold probePhase
  simp [h]

theorem probePhase_of_probe_error (s : SessionState) (o : RemoteOracles)
    (e : String) (hc : s.gemini_configured = false)
    (hp : o.probe = Except.error e) : probePhase s o = s := by
  unfold probePhase setup_gemini
  simp [hc, hp]

theorem probePhase_configured_mono (s : SessionState) (o : RemoteOracles)
    (h : (probePhase s o).gemini_configured = false) :
    s.gemini_configured = false := by
  unfold probePhase at h
  by_cases hc : s.gemini_configured
  · simp [hc] at h
  · simpa using hc

theorem uploadPhase_same_key (s : SessionState) (uf : UploadedFile)
    (o : RemoteOracles) (g : GeminiFile) (hg : s.gemini_file = some g)
    (hk : s.current_file_key = some (file_key uf)) :
    uploadPhase s (some uf) o = (s, false, false) := by
  unfold uploadPhase
  rw [hg, hk]
  simp

theorem chatPhase_no_buttons (s : SessionState) (o : RemoteOracles)
    (uploaded : Option UploadedFile) (q : String) :
    chatPhase s ⟨uploaded, false, false, q⟩ o = (s, false) := by
  unfold chatPhase
  by_cases h : s.gemini_file.isSome ∧ s.gemini_configured <;> simp [h]

/-! ### Concrete session states and oracles used by witnesses -/

/-- A session holding `handleW` with one recorded turn, probe cached true. -/
def sessionW : SessionState :=
  { gemini_file := some handleW
    chat_history := [("What is the summary?", "It is short.")]
    gemini_configured := true
    current_file_key := some "report.pdf_10240"
    file_info := none }

/-- Oracles where every remote call succeeds. -/
def oracleW : RemoteOracles :=
  { probe := Except.ok ()
    upload := Except.ok handleW2
    getfile := Except.ok ⟨some "report_v2.pdf", some "application/pdf", some "ACTIVE"⟩
    answer := Except.ok "Fine." }

/-- Oracles where the remote upload call raises. -/
def oracleUploadErrW : RemoteOracles :=
  { probe := Except.ok ()
    upload := Except.error "quota exceeded"
    getfile := Except.error "unreachable"
    answer := Except.ok "Fine." }

/-! ### Claim theorems -/

/-- C1: when the session already holds a document handle and its stored
identity key equals the key of the newly presented file, the rerun that
submits this file attempts no remote upload call, keeps the handle and
stored key unchanged, and leaves the chat history exactly as it was. -/
theorem resubmit_same_identity_noop
    (s : SessionState) (uf : UploadedFile) (g : GeminiFile) (o : RemoteOracles)
    (hg : s.gemini_file = some g)
    (hk : s.current_file_key = some (file_key uf)) :
    (runStep s ⟨some uf, false, false, ""⟩ o).uploadAttempted = false ∧
    (runStep s ⟨some uf, false, false, ""⟩ o).state.gemini_file = some g ∧
    (runStep s ⟨some uf, false, false, ""⟩ o).state.current_file_key
      = some (file_key uf) ∧
    (runStep s ⟨some uf, false, false, ""⟩ o).state.chat_history
      = s.chat_history := by
  obtain ⟨e1, e2, e3, e4⟩ := probePhase_preserves s o
  have hup := uploadPhase_same_key (probePhase s o) uf o g
    (by rw [e1, hg]) (by rw [e2, hk])
  simp only [runStep, hup, chatPhase_no_buttons]
  exact ⟨trivial, by rw [e1, hg], by rw [e2, hk], e3⟩

/-- Witness for C1: re-submitting `fileW` into `sessionW`, whose stored key
already is `"report.pdf_10240"`, changes nothing. -/
theorem resubmit_same_identity_noop_witness :
    sessionW.gemini_file = some handleW ∧
    sessionW.current_file_key = some (file_key fileW) ∧
    ((runStep sessionW ⟨some fileW, false, false, ""⟩ oracleW).uploadAttempted
        = false ∧
      (runStep sessionW ⟨some fileW, false, false, ""⟩ oracleW).state.gemini_file
        = some handleW ∧
      (runStep sessionW ⟨some fileW, false, false, ""⟩
          oracleW).state.current_file_key = some (file_key fileW) ∧
      (runStep sessionW ⟨some fileW, false, false, ""⟩ oracleW).state.chat_history
        = sessionW.chat_history) :=
  ⟨by decide, by decide,
    resubmit_same_identity_noop sessionW fileW handleW oracleW
      (by decide) (by decide)⟩

/-- C2: when the presented file's identity key differs from the stored one
and the remote upload call succeeds with handle `g`, the submit block
stores `g` and the new key together and leaves the chat history empty
immediately afterwards. -/
theorem submit_new_identity_replaces
    (s : SessionState) (uf : UploadedFile) (g : GeminiFile) (o : RemoteOracles)
    (hconf : s.gemini_configured = true)
    (hdiff : s.current_file_key ≠ some (file_key uf))
    (hok : o.upload = Except.ok g) :
    (uploadPhase s (some uf) o).1.gemini_file = some g ∧
    (uploadPhase s (some uf) o).1.current_file_key = some (file_key uf) ∧
    (uploadPhase s (some uf) o).1.chat_history = [] := by
  unfold uploadPhase upload_file_to_gemini
  rw [hok]
  simp [hconf, hdiff]

/-- Witness for C2: submitting `fileW2` into `sessionW` (stored key
`"report.pdf_10240"`, so different) with a successful upload returning
`handleW2`. -/
theorem submit_new_identity_replaces_witness :
    sessionW.gemini_configured = true ∧
    sessionW.current_file_key ≠ some (file_key fileW2) ∧
    oracleW.upload = Except.ok handleW2 ∧
    ((uploadPhase sessionW (some fileW2) oracleW).1.gemini_file
        = some handleW2 ∧
      (uploadPhase sessionW (some fileW2) oracleW).1.current_file_key
        = some (file_key fileW2) ∧
      (uploadPhase sessionW (some fileW2) oracleW).1.chat_history = []) :=
  ⟨by decide, by decide, rfl,
    submit_new_identity_replaces sessionW fileW2 handleW2 oracleW
      (by decide) (by decide) rfl⟩

/-- C3: when the remote upload call raises, the submit block returns the
session state completely unchanged: same handle, same stored key, same
chat history, and in particular no handle from the failed upload. -/
theorem submit_remote_failure_unchanged
    (s : SessionState) (uf : UploadedFile) (e : String) (o : RemoteOracles)
    (herr : o.upload = Except.error e) :
    (uploadPhase s (some uf) o).1 = s := by
  unfold uploadPhase upload_file_to_gemini
  rw [herr]
  by_cases hc : s.gemini_configured
  · simp only [hc, if_true]
    split <;> rfl
  · simp [hc]

/-- Witness for C3: a failing upload of `fileW2` leaves `sessionW` intact. -/
theorem submit_remote_failure_unchanged_witness :
    oracleUploadErrW.upload = Except.error "quota exceeded" ∧
    (uploadPhase sessionW (some fileW2) oracleUploadErrW).1 = sessionW :=
  ⟨rfl,
    submit_remote_failure_unchanged sessionW fileW2 "quota exceeded"
      oracleUploadErrW rfl⟩

/-- C4 (code behaviour at the failing input): when `genai.upload_file`
raises, `upload_file_to_gemini` returns `None` with the temporary file
still on disk — `os.unlink` at line 36 is never reached — while on the
success path the temporary file is deleted. -/
theorem upload_exception_leaves_temp_file :
    upload_file_to_gemini fileW (Except.error "network unreachable")
      = (none, true) ∧
    upload_file_to_gemini fileW (Except.ok handleW) = (some handleW, false) := by
  decide

/-- C5: asking any question while no document handle is present returns the
fixed sentinel string, for every outcome of the remote oracle (in the code
the remote call is not even reached), and being a total function it never
raises. -/
theorem ask_without_document_sentinel (q : String)
    (remote : Except String String) :
    answer_question_with_gemini q none remote = "No document uploaded yet." :=
  rfl

/-! ### More helper lemmas -/

theorem chatPhase_ask (s : SessionState) (o : RemoteOracles)
    (u : Option UploadedFile) (q : String)
    (hdoc : s.gemini_file.isSome = true) (hconf : s.gemini_configured = true)
    (hq : q ≠ "") :
    chatPhase s ⟨u, false, true, q⟩ o =
      ({ s with chat_history := s.chat_history ++
          [(q, answer_question_with_gemini q s.gemini_file o.answer)] },
       true) := by
  unfold chatPhase
  simp [hdoc, hconf, hq]

theorem runStep_ask (s : SessionState) (o : RemoteOracles) (q : String)
    (hdoc : s.gemini_file.isSome = true) (hconf : s.gemini_configured = true)
    (hq : q ≠ "") :
    runStep s ⟨none, false, true, q⟩ o =
      { state := { s with chat_history := s.chat_history ++
            [(q, answer_question_with_gemini q s.gemini_file o.answer)] }
        uploadAttempted := false
        answerAttempted := true
        tempLeft := false } := by
  simp only [runStep, probePhase_of_configured s o hconf]
  rw [show uploadPhase s none o = (s, false, false) from rfl,
    chatPhase_ask s o none q hdoc hconf hq]

/-- Helper: repeated Ask reruns with non-empty
questions against a fixed document append exactly one turn each, in call
order, echoing the question text, and never touch the handle. -/
theorem runAsks_spec (s : SessionState) (qs : List (String × Except String String))
    (hdoc : s.gemini_file.isSome = true) (hconf : s.gemini_configured = true)
    (hne : ∀ p ∈ qs, p.1 ≠ "") :
    (runAsks s qs).chat_history =
      s.chat_history ++
        qs.map (fun p =>
          (p.1, answer_question_with_gemini p.1 s.gemini_file p.2)) ∧
    (runAsks s qs).gemini_file = s.gemini_file ∧
    (runAsks s qs).gemini_configured = true := by
  induction qs generalizing s with
  | nil => exact ⟨by simp [runAsks], rfl, hconf⟩
  | cons p rest ih =>
    obtain ⟨q, a⟩ := p
    have hq : q ≠ "" := hne (q, a) (List.mem_cons_self _ _)
    have hstep := runStep_ask s
      ⟨Except.ok (), Except.error "unused", Except.error "unused", a⟩ q hdoc hconf hq
    have hrec := ih
      { s with chat_history := s.chat_history ++
          [(q, answer_question_with_gemini q s.gemini_file a)] }
      hdoc hconf (fun x hx => hne x (List.mem_cons_of_mem _ hx))
    refine ⟨?_, ?_, ?_⟩
    · show (runAsks _ rest).chat_history = _
      rw [hstep]
      rw [hrec.1]
      simp
    · show (runAsks _ rest).gemini_file = _
      rw [hstep]
      exact hrec.2.1
    · show (runAsks _ rest).gemini_configured = true
      rw [hstep]
      exact hrec.2.2

/-- Oracles for a rerun whose upload succeeds with `handleW` and whose
metadata call fails. -/
def oracleUploadOkMetaErrW : RemoteOracles :=
  { probe := Except.ok ()
    upload := Except.ok handleW
    getfile := Except.error "metadata fetch failed"
    answer := Except.ok "unused" }

/-- Oracles for an Ask rerun whose remote answer call succeeds. -/
def oracleAnswerOkW : RemoteOracles :=
  { probe := Except.ok ()
    upload := Except.error "unused"
    getfile := Except.error "unused"
    answer := Except.ok "It is short." }

/-- C6 counterexample: a concrete session.  Rerun 1 uploads `fileW`
successfully (a document change, so the history is empty); rerun 2 is one
successful Ask, after which the history has the expected length 1; rerun 3
clicks the Clear History button (lines 188-190), a third mutation point of
`chat_history`: with still exactly one successful Ask call since the last
document change, the history now has length 0, and the turn was removed
without any document replacement (the handle is unchanged). -/
theorem transcript_clear_button_counterexample :
    ((runStep initialState ⟨some fileW, false, false, ""⟩
        oracleUploadOkMetaErrW).state.chat_history.length = 0 ∧
      (runStep
          (runStep initialState ⟨some fileW, false, false, ""⟩
            oracleUploadOkMetaErrW).state
          ⟨none, false, true, "What is the summary?"⟩
          oracleAnswerOkW).state.chat_history.length = 1 ∧
      (runStep
          (runStep
            (runStep initialState ⟨some fileW, false, false, ""⟩
              oracleUploadOkMetaErrW).state
            ⟨none, false, true, "What is the summary?"⟩
            oracleAnswerOkW).state
          ⟨none, true, false, ""⟩ oracleAnswerOkW).state.chat_history.length
        = 0 ∧
      (runStep
          (runStep
            (runStep initialState ⟨some fileW, false, false, ""⟩
              oracleUploadOkMetaErrW).state
            ⟨none, false, true, "What is the summary?"⟩
            oracleAnswerOkW).state
          ⟨none, true, false, ""⟩ oracleAnswerOkW).state.gemini_file
        = some handleW) := by
  decide

/-- C6 amended: besides the clear on document replacement and the one-turn
append per answered question, the Clear History button is a third
sanctioned mutation of the history; in its absence the transcript is
append-only: starting from the state right after a document change (empty
history), N Ask reruns with non-empty questions and no Clear History click
leave a history of length N, in call order, each element echoing the exact
question text submitted, with the handle untouched. -/
theorem transcript_append_only
    (s : SessionState) (qs : List (String × Except String String))
    (hdoc : s.gemini_file.isSome = true) (hconf : s.gemini_configured = true)
    (hempty : s.chat_history = []) (hne : ∀ p ∈ qs, p.1 ≠ "") :
    (runAsks s qs).chat_history.length = qs.length ∧
    (runAsks s qs).chat_history.map Prod.fst = qs.map Prod.fst ∧
    (runAsks s qs).chat_history =
      qs.map (fun p =>
        (p.1, answer_question_with_gemini p.1 s.gemini_file p.2)) ∧
    (runAsks s qs).gemini_file = s.gemini_file := by
  obtain ⟨h1, h2, h3⟩ := runAsks_spec s qs hdoc hconf hne
  rw [hempty] at h1
  simp only [List.nil_append] at h1
  refine ⟨?_, ?_, h1, h2⟩
  · rw [h1, List.length_map]
  · rw [h1, List.map_map]
    rfl

/-- Witness for the C6 amended theorem: two Ask reruns starting from a
fresh post-upload state build the two-turn transcript in order. -/
theorem transcript_append_only_witness :
    (let s0 : SessionState :=
      { gemini_file := some handleW
        chat_history := []
        gemini_configured := true
        current_file_key := some "report.pdf_10240"
        file_info := none }
     let qs : List (String × Except String String) :=
      [("What is the summary?", Except.ok "It is short."),
       ("Who wrote it?", Except.error "timeout")]
     s0.gemini_file.isSome = true ∧ s0.gemini_configured = true ∧
      s0.chat_history = [] ∧ (∀ p ∈ qs, p.1 ≠ "") ∧
      ((runAsks s0 qs).chat_history.length = qs.length ∧
        (runAsks s0 qs).chat_history.map Prod.fst = qs.map Prod.fst ∧
        (runAsks s0 qs).chat_history =
          qs.map (fun p =>
            (p.1, answer_question_with_gemini p.1 s0.gemini_file p.2)) ∧
        (runAsks s0 qs).gemini_file = s0.gemini_file)) :=
  ⟨rfl, rfl, rfl, by decide,
    transcript_append_only _ _ rfl rfl rfl (by decide)⟩

/-- C7 counterexample: when the metadata call fails after a successful
upload, the fallback dict reports the processing state as `"Active"` — a
definite value, not an unknown marker — so the claimed fallback to
"unknown" for the processing state is false at this input. -/
theorem metadata_fallback_state_counterexample :
    (get_file_info handleW (Except.error "metadata fetch failed")).state
      = "Active" ∧
    (get_file_info handleW (Except.error "metadata fetch failed")).state
      ≠ "unknown" ∧
    (get_file_info handleW (Except.error "metadata fetch failed")).state
      ≠ "Unknown state" ∧
    (get_file_info handleW (Except.error "metadata fetch failed")).mime_type
      = "Unknown type" := by
  decide

/-- C7 amended: when the metadata call after a successful upload fails, the
dict falls back to the handle's display name (the original file name when
the attribute is present, otherwise the literal `"Uploaded file"`),
`"Unknown type"` for the MIME type and `"Active"` for the processing
state; the upload as a whole still succeeds — the submit block stores the
new handle and the fallback dict even though the metadata call raised. -/
theorem metadata_failure_fallback
    (g : GeminiFile) (e : String) (s : SessionState) (uf : UploadedFile)
    (o : RemoteOracles)
    (hconf : s.gemini_configured = true)
    (hdiff : s.current_file_key ≠ some (file_key uf))
    (hup : o.upload = Except.ok g)
    (hmeta : o.getfile = Except.error e) :
    get_file_info g o.getfile =
      { name := g.display_name.getD "Uploaded file"
        size := "Unknown size"
        mime_type := "Unknown type"
        state := "Active" } ∧
    (uploadPhase s (some uf) o).1.gemini_file = some g ∧
    (uploadPhase s (some uf) o).1.file_info
      = some (get_file_info g o.getfile) := by
  have h1 : get_file_info g o.getfile =
      { name := g.display_name.getD "Uploaded file"
        size := "Unknown size"
        mime_type := "Unknown type"
        state := "Active" } := by
    rw [hmeta]
    rfl
  refine ⟨h1, ?_, ?_⟩ <;>
  · unfold uploadPhase upload_file_to_gemini
    rw [hup]
    simp [hconf, hdiff]

/-- Witness for C7: uploading `fileW2` into `sessionW` while the metadata
call fails still stores the handle, with the fallback dict. -/
theorem metadata_failure_fallback_witness :
    sessionW.gemini_configured = true ∧
    sessionW.current_file_key ≠ some (file_key fileW2) ∧
    oracleUploadOkMetaErrW.upload = Except.ok handleW ∧
    oracleUploadOkMetaErrW.getfile = Except.error "metadata fetch failed" ∧
    (get_file_info handleW oracleUploadOkMetaErrW.getfile =
        { name := handleW.display_name.getD "Uploaded file"
          size := "Unknown size"
          mime_type := "Unknown type"
          state := "Active" } ∧
      (uploadPhase sessionW (some fileW2) oracleUploadOkMetaErrW).1.gemini_file
        = some handleW ∧
      (uploadPhase sessionW (some fileW2) oracleUploadOkMetaErrW).1.file_info
        = some (get_file_info handleW oracleUploadOkMetaErrW.getfile)) :=
  ⟨rfl, by decide, rfl, rfl,
    metadata_failure_fallback handleW "metadata fetch failed" sessionW fileW2
      oracleUploadOkMetaErrW rfl (by decide) rfl rfl⟩

/-- Oracles for an Ask rerun whose remote answer call raises. -/
def oracleAnswerErrW : RemoteOracles :=
  { probe := Except.ok ()
    upload := Except.error "unused"
    getfile := Except.error "unused"
    answer := Except.error "deadline exceeded" }

/-- C8: with a document handle present, a failing remote answer call makes
`answer_question_with_gemini` return the prefixed human-readable error
string instead of raising, the Ask rerun still counts as an attempted
answer call, and the caller appends that error string to the history like
any other answer. -/
theorem ask_remote_failure_soft
    (s : SessionState) (q e : String) (g : GeminiFile) (o : RemoteOracles)
    (hdoc : s.gemini_file = some g) (hconf : s.gemini_configured = true)
    (hq : q ≠ "") (herr : o.answer = Except.error e) :
    answer_question_with_gemini q s.gemini_file o.answer
      = "Error generating response: " ++ e ∧
    (runStep s ⟨none, false, true, q⟩ o).answerAttempted = true ∧
    (runStep s ⟨none, false, true, q⟩ o).state.chat_history
      = s.chat_history ++ [(q, "Error generating response: " ++ e)] := by
  have hans : answer_question_with_gemini q s.gemini_file o.answer
      = "Error generating response: " ++ e := by
    rw [hdoc, herr]
    rfl
  have hsome : s.gemini_file.isSome = true := by
    rw [hdoc]
    rfl
  refine ⟨hans, ?_, ?_⟩ <;> rw [runStep_ask s o q hsome hconf hq]
  rw [hans]

/-- Witness for C8: a timed-out answer call in `sessionW` appends the error
string as the second turn. -/
theorem ask_remote_failure_soft_witness :
    sessionW.gemini_file = some handleW ∧
    sessionW.gemini_configured = true ∧
    ("Who wrote it?" : String) ≠ "" ∧
    oracleAnswerErrW.answer = Except.error "deadline exceeded" ∧
    (answer_question_with_gemini "Who wrote it?" sessionW.gemini_file
        oracleAnswerErrW.answer
        = "Error generating response: " ++ "deadline exceeded" ∧
      (runStep sessionW ⟨none, false, true, "Who wrote it?"⟩
          oracleAnswerErrW).answerAttempted = true ∧
      (runStep sessionW ⟨none, false, true, "Who wrote it?"⟩
          oracleAnswerErrW).state.chat_history
        = sessionW.chat_history ++
          [("Who wrote it?", "Error generating response: " ++
            "deadline exceeded")]) :=
  ⟨rfl, rfl, by decide, rfl,
    ask_remote_failure_soft sessionW "Who wrote it?" "deadline exceeded"
      handleW oracleAnswerErrW rfl rfl (by decide) rfl⟩

/-- One rerun while the probe result is cached as false and the fresh probe
raises: nothing happens — no upload call, no answer call, state intact. -/
theorem gate_step (s : SessionState) (inp : RerunInput) (o : RemoteOracles)
    (e : String) (hconf : s.gemini_configured = false)
    (hprobe : o.probe = Except.error e) :
    runStep s inp o =
      { state := s
        uploadAttempted := false
        answerAttempted := false
        tempLeft := false } := by
  have hp := probePhase_of_probe_error s o e hconf hprobe
  have hu : uploadPhase s inp.uploaded_file o = (s, false, false) := by
    unfold uploadPhase
    cases inp.uploaded_file with
    | none => rfl
    | some uf => simp [hconf]
  have hcp : chatPhase s inp o = (s, false) := by
    unfold chatPhase
    simp [hconf]
  simp only [runStep, hp, hu, hcp]

/-- C9: as long as the cached probe result is false and every fresh probe
of the session raises, no rerun of the session ever attempts a remote
upload call or a remote answer call and the state stays put; and the probe
itself returns true exactly on a successful round-trip, converting every
exception to false instead of propagating it. -/
theorem availability_gate
    (s : SessionState) (evs : List (RerunInput × RemoteOracles))
    (hconf : s.gemini_configured = false)
    (hfail : ∀ ev ∈ evs, ∃ e, ev.2.probe = Except.error e) :
    (runSession s evs).2.1 = false ∧
    (runSession s evs).2.2 = false ∧
    (runSession s evs).1 = s ∧
    (∀ r : Except String Unit, setup_gemini r = true ↔ r = Except.ok ()) := by
  have hiff : ∀ r : Except String Unit,
      setup_gemini r = true ↔ r = Except.ok () := by
    intro r
    cases r with
    | ok u => cases u; simp [setup_gemini]
    | error e => simp [setup_gemini]
  induction evs with
  | nil => exact ⟨rfl, rfl, rfl, hiff⟩
  | cons ev rest ih =>
    obtain ⟨e, he⟩ := hfail ev (List.mem_cons_self _ _)
    have hstep := gate_step s ev.1 ev.2 e hconf he
    have hrest := ih (fun x hx => hfail x (List.mem_cons_of_mem _ hx))
    simp only [runSession, hstep]
    exact ⟨by simp [hrest.1], by simp [hrest.2.1], hrest.2.2.1, hiff⟩

/-- Oracles where the probe raises. -/
def oracleProbeErrW : RemoteOracles :=
  { probe := Except.error "invalid api key"
    upload := Except.ok handleW
    getfile := Except.ok ⟨some "report.pdf", some "application/pdf", some "ACTIVE"⟩
    answer := Except.ok "It is short." }

/-- Witness for C9: two reruns from the initial state — one presenting a
file with the Ask button down, one asking again — with failing probes
attempt no remote upload or answer call and leave the state initial. -/
theorem availability_gate_witness :
    initialState.gemini_configured = false ∧
    (∀ ev ∈ [((⟨some fileW, false, true, "What is the summary?"⟩ : RerunInput),
        oracleProbeErrW),
      ((⟨none, false, true, "What is the summary?"⟩ : RerunInput),
        oracleProbeErrW)],
      ∃ e, ev.2.probe = Except.error e) ∧
    ((runSession initialState
        [((⟨some fileW, false, true, "What is the summary?"⟩ : RerunInput),
          oracleProbeErrW),
         ((⟨none, false, true, "What is the summary?"⟩ : RerunInput),
          oracleProbeErrW)]).2.1 = false ∧
      (runSession initialState
        [((⟨some fileW, false, true, "What is the summary?"⟩ : RerunInput),
          oracleProbeErrW),
         ((⟨none, false, true, "What is the summary?"⟩ : RerunInput),
          oracleProbeErrW)]).2.2 = false ∧
      (runSession initialState
        [((⟨some fileW, false, true, "What is the summary?"⟩ : RerunInput),
          oracleProbeErrW),
         ((⟨none, false, true, "What is the summary?"⟩ : RerunInput),
          oracleProbeErrW)]).1 = initialState ∧
      (∀ r : Except String Unit, setup_gemini r = true ↔ r = Except.ok ())) :=
  have hfail : ∀ ev ∈ [((⟨some fileW, false, true, "What is the summary?"⟩ :
        RerunInput), oracleProbeErrW),
      ((⟨none, false, true, "What is the summary?"⟩ : RerunInput),
        oracleProbeErrW)], ∃ e, ev.2.probe = Except.error e := by
    intro ev hev
    cases hev with
    | head => exact ⟨"invalid api key", rfl⟩
    | tail _ hev2 =>
      cases hev2 with
      | head => exact ⟨"invalid api key", rfl⟩
      | tail _ hev3 => cases hev3
  ⟨rfl, hfail, availability_gate initialState _ rfl hfail⟩

/-- C10: a rerun that clicks Ask with the empty question makes no remote
answer call and leaves the chat history unchanged — the handler at
line 192 runs only when the question is non-empty. -/
theorem ask_empty_question_no_call (s : SessionState) (o : RemoteOracles) :
    (runStep s ⟨none, false, true, ""⟩ o).answerAttempted = false ∧
    (runStep s ⟨none, false, true, ""⟩ o).state.chat_history
      = s.chat_history := by
  obtain ⟨e1, e2, e3, e4⟩ := probePhase_preserves s o
  have hcp : chatPhase (probePhase s o) ⟨none, false, true, ""⟩ o
      = (probePhase s o, false) := by
    unfold chatPhase
    by_cases h : (probePhase s o).gemini_file.isSome ∧
        (probePhase s o).gemini_configured <;> simp [h]
  simp only [runStep,
    show uploadPhase (probePhase s o) none o = (probePhase s o, false, false)
      from rfl, hcp]
  exact ⟨trivial, e3⟩
